import Mathlib

/-!
# Device selection dialog of OpenHantek6022

A verification development for `openhantek/src/selectdevice/selectsupporteddevice.cpp`.

The dialog is a small event-driven state machine.  Its handlers (the lambdas
connected in the constructor and in `showSelectDeviceModal`) are embedded as
pure functions on an explicit record of the fields they read and write.  The
widgets the handlers talk to (combo box, OK button, ready-state label) and the
application event loop are represented by the handful of fields the handlers
observe; every library call used by the source is a small function documented
with the library behaviour it stands for.  The discovery backend is external:
what it reports on a refresh and what it hands over at the end are inputs.
-/

namespace OpenHantek

/-! ## Data -/

/-- Identifier of a USB device, `UniqueUSBid` in the source (an integer type,
registered as a meta type in the constructor). -/
abbrev UniqueUSBid := Nat

/-- One row of the device list shown in the combo box.  The handlers read four
values of the current row through item roles: `Qt::UserRole` (the
`UniqueUSBid`), `Qt::UserRole + 1` (canConnect), `Qt::UserRole + 2`
(needFirmware) and `Qt::UserRole + 3` (the error text).  The field names are the
ones the comments of the source give to these roles. -/
structure DeviceListEntry where
  id : UniqueUSBid
  canConnect : Bool
  needFirmware : Bool
  errorMessage : String
deriving DecidableEq, Repr

/-- Handle of a device handed over by the backend (`USBDevice` in the source);
only its identity matters here. -/
structure USBDevice where
  handle : Nat
deriving DecidableEq, Repr

/-- Content of `ui->labelReadyState`.  The texts are translated (`tr`), so the
label is represented by which message was written, not by its characters:
`fromForm` is the text of the form before any handler wrote to the label,
`deviceReady` is "The device is ready for use.", `uploadInProgress` is
"Upload in progress ...", `connectionFailed msg` is "Connection failed!"
followed by `msg`, and `noDevices` is `messageNoDevices`. -/
inductive ReadyStateText where
  | fromForm
  | deviceReady
  | uploadInProgress
  | connectionFailed (errorMessage : String)
  | noDevices
deriving DecidableEq, Repr

/-- State read and written by the handlers of `SelectSupportedDevice`.

* `okEnabled`: enabled flag of `ui->buttonBox->button( QDialogButtonBox::Ok )`;
* `currentIndex`: `ui->cmbDevices->currentIndex()`, `-1` when nothing is selected;
* `entries`: rows of the `DevicesListModel` set on the combo box;
* `labelReadyState`: content of `ui->labelReadyState`;
* `selectedDevice`, `demoModeClicked`: the two members of the class;
* `quitNow`: whether `QCoreApplication::quit()` has been requested for the
  running event loop. -/
structure SelectSupportedDevice where
  okEnabled : Bool
  currentIndex : Int
  entries : List DeviceListEntry
  labelReadyState : ReadyStateText
  selectedDevice : UniqueUSBid
  demoModeClicked : Bool
  quitNow : Bool
deriving DecidableEq, Repr

/-- What `showSelectDeviceModal` gives back: the returned `unique_ptr`
(`none` for a null pointer), the value written to the `demoMode` reference, and
the identifiers with which `findDevices->takeDevice` was called, in order. -/
structure ModalResult where
  device : Option USBDevice
  demoMode : Bool
  takeDeviceCalls : List UniqueUSBid
deriving DecidableEq, Repr

/-- Events delivered to the dialog by the event loop.

* `timeout changed devices`: the 1000 ms timer fired; `changed` is what
  `findDevices->updateDeviceList()` returns on this tick and `devices` is the
  list the backend holds then (read by `model->updateDeviceList()`);
* `activated i`: the user picks row `i` of the combo box;
* `okClicked`: the user presses the OK button;
* `demoModeClicked`: the user presses the Demo Mode button;
* `applicationQuit`: the application is asked to quit from outside the
  handlers of this file (the dialog is closed, the process is told to quit). -/
inductive Event where
  | timeout (changed : Bool) (devices : List DeviceListEntry)
  | activated (index : Nat)
  | okClicked
  | demoModeClicked
  | applicationQuit
deriving DecidableEq, Repr

/-! ## Combo box access -/

/-- Row of the model under the current index of the combo box, if any. -/
def currentEntry (d : SelectSupportedDevice) : Option DeviceListEntry :=
  if 0 ≤ d.currentIndex then d.entries.get? d.currentIndex.toNat else none

/-- Value of `ui->cmbDevices->currentData( Qt::UserRole ).value< UniqueUSBid >()`;
an invalid variant converts to the default value `0`. -/
def currentDataId (d : SelectSupportedDevice) : UniqueUSBid :=
  match currentEntry d with
  | some e => e.id
  | none => 0

/-- Value of `ui->cmbDevices->currentData( Qt::UserRole + 1 ).toBool()`;
an invalid variant converts to `false`. -/
def currentDataCanConnect (d : SelectSupportedDevice) : Bool :=
  match currentEntry d with
  | some e => e.canConnect
  | none => false

/-- Value of `ui->cmbDevices->currentData( Qt::UserRole + 2 ).toBool()`. -/
def currentDataNeedFirmware (d : SelectSupportedDevice) : Bool :=
  match currentEntry d with
  | some e => e.needFirmware
  | none => false

/-- Value of `ui->cmbDevices->currentData( Qt::UserRole + 3 ).toString()`;
an invalid variant converts to the empty string. -/
def currentDataErrorMessage (d : SelectSupportedDevice) : String :=
  match currentEntry d with
  | some e => e.errorMessage
  | none => ""

/-! ## Handlers connected in the constructor (lines 18-38) -/

/-- Modelled from the spec: the class declaration (`selectsupporteddevice.h`),
which initialises the member `demoModeClicked`, is not part of this file.  The
Demo outcome is produced "on explicit demo-mode request" only, so the flag is
`false` until the Demo Mode button is pressed. -/
def initialDemoModeClicked : Bool := false

/-- State after the constructor: `setupUi` leaves the combo box empty and the
label with the text of the form, line 20 disables the OK button.  The
initial value of `selectedDevice` comes from the class declaration, which is
not part of this file, and is a parameter. -/
def construct (initialSelected : UniqueUSBid) : SelectSupportedDevice :=
  { okEnabled := false
    currentIndex := -1
    entries := []
    labelReadyState := ReadyStateText.fromForm
    selectedDevice := initialSelected
    demoModeClicked := initialDemoModeClicked
    quitNow := false }

/-- Handler of `QDialogButtonBox::accepted` (lines 22-27): record the id of the
current row unless nothing is selected, then ask the application to quit. -/
def onAccepted (d : SelectSupportedDevice) : SelectSupportedDevice :=
  let d1 := if d.currentIndex ≠ -1 then { d with selectedDevice := currentDataId d } else d
  { d1 with quitNow := true }

/-- Handler of `btnDemoMode` clicked (line 37): `demoModeClicked = true`. -/
def onDemoModeClicked (d : SelectSupportedDevice) : SelectSupportedDevice :=
  { d with demoModeClicked := true }

/-- Effect of `QAbstractButton::click()` on the OK button, and of a press by the
user: a disabled button ignores it, an enabled one emits `clicked`, which the
button box turns into `accepted`. -/
def okClick (d : SelectSupportedDevice) : SelectSupportedDevice :=
  if d.okEnabled then onAccepted d else d

/-! ## Handlers connected in `showSelectDeviceModal` (lines 40-116) -/

/-- Handler of `QComboBox::currentIndexChanged` (lines 45-67). -/
def onCurrentIndexChanged (index : Int) (d : SelectSupportedDevice) : SelectSupportedDevice :=
  if index = -1 then
    { d with okEnabled := false }
  else if currentDataCanConnect d then
    { d with okEnabled := true, labelReadyState := ReadyStateText.deviceReady }
  else if currentDataNeedFirmware d then
    { d with okEnabled := false, labelReadyState := ReadyStateText.uploadInProgress }
  else
    { d with okEnabled := false
             labelReadyState := ReadyStateText.connectionFailed (currentDataErrorMessage d) }

/-- Effect of `QComboBox::setCurrentIndex( index )`: an index outside the model
stands for "no selection" (`-1`); the index is stored and `currentIndexChanged`
is emitted only when it differs from the current one. -/
def setCurrentIndex (index : Int) (d : SelectSupportedDevice) : SelectSupportedDevice :=
  let target : Int := if 0 ≤ index ∧ index < d.entries.length then index else -1
  if target = d.currentIndex then d
  else onCurrentIndexChanged target { d with currentIndex := target }

/-- Modelled from the spec: `DevicesListModel::updateDeviceList` is not part of
this file.  The Candidate Registry is "rebuilt (not incrementally patched)" from
the backend's current candidates: the rows are replaced wholesale, which for
the combo box is a model reset, so its current index becomes `-1` and
`currentIndexChanged( -1 )` is emitted when a row was selected before. -/
def modelUpdateDeviceList (devices : List DeviceListEntry) (d : SelectSupportedDevice) :
    SelectSupportedDevice :=
  let d1 := { d with entries := devices, currentIndex := -1 }
  if d.currentIndex = -1 then d1 else onCurrentIndexChanged (-1) d1

/-- First statement of the timer handler (lines 94-96): the model is rebuilt
only when `findDevices->updateDeviceList()` reports a change.  `changed` is the
value of that call and `devices` the list read by `model->updateDeviceList()`. -/
def refreshModel (changed : Bool) (devices : List DeviceListEntry) (d : SelectSupportedDevice) :
    SelectSupportedDevice :=
  if changed then modelUpdateDeviceList devices d else d

/-- Handler of `QTimer::timeout` (lines 93-106). -/
def onTimeout (changed : Bool) (devices : List DeviceListEntry) (d : SelectSupportedDevice) :
    SelectSupportedDevice :=
  let d1 := refreshModel changed devices d
  if d1.entries.length ≠ 0 then
    let d2 := setCurrentIndex 0 d1
    if d2.okEnabled then okClick d2 else d2
  else
    { d1 with labelReadyState := ReadyStateText.noDevices }

/-! ## Event loop and session -/

/-- Delivery of one event to its handler.  The user can only pick a row that
exists; `applicationQuit` is `QCoreApplication::quit()` called from outside. -/
def dispatch (e : Event) (d : SelectSupportedDevice) : SelectSupportedDevice :=
  match e with
  | Event.timeout changed devices => onTimeout changed devices d
  | Event.activated i => if i < d.entries.length then setCurrentIndex i d else d
  | Event.okClicked => okClick d
  | Event.demoModeClicked => onDemoModeClicked d
  | Event.applicationQuit => { d with quitNow := true }

/-- The running event loop: events are delivered in order until a quit has been
requested; events that arrive afterwards are not delivered (`exec` returns and
line 112 stops the timer). -/
def eventLoop : List Event → SelectSupportedDevice → SelectSupportedDevice
  | [], d => d
  | e :: es, d => if d.quitNow then d else eventLoop es (dispatch e d)

/-- Effect of `QCoreApplication::instance()->exec()` (line 111) on the events that
arrive while it runs.  `exec` starts the event loop with no quit request
pending: a `quit()` issued while no event loop is running has no effect (Qt
documentation of `QCoreApplication::exit`: "If the event loop is not running,
this function does nothing"; of `quit`: a call made "before control enters the
main event loop ... has no effect and the application never exits"). -/
def exec (events : List Event) (d : SelectSupportedDevice) : SelectSupportedDevice :=
  eventLoop events { d with quitNow := false }

/-- State of the dialog when `exec` is entered: lines 42-44 set a freshly built,
still empty model on the combo box, and line 108 delivers one timer event
synchronously, before the event loop runs. -/
def beforeExec (changed0 : Bool) (devices0 : List DeviceListEntry) (self : SelectSupportedDevice) :
    SelectSupportedDevice :=
  onTimeout changed0 devices0 { self with entries := [], currentIndex := -1 }

/-- State of the dialog after the events delivered by `exec`. -/
def afterExec (changed0 : Bool) (devices0 : List DeviceListEntry) (events : List Event)
    (self : SelectSupportedDevice) : SelectSupportedDevice :=
  exec events (beforeExec changed0 devices0 self)

/-- The function `showSelectDeviceModal` (lines 40-116).  `takeDevice` is the
answer of `findDevices->takeDevice` at the end of the session, `changed0` and
`devices0` are what the backend reports on the immediate timer event, and
`events` are the events that arrive while `exec` runs.  The result is `none`
when the events end without a quit request: the event loop is still waiting
and the function has not returned. -/
def showSelectDeviceModal (takeDevice : UniqueUSBid → Option USBDevice) (changed0 : Bool)
    (devices0 : List DeviceListEntry) (events : List Event) (self : SelectSupportedDevice) :
    Option ModalResult :=
  let d := afterExec changed0 devices0 events self
  if d.quitNow then
    some { device := takeDevice d.selectedDevice
           demoMode := d.demoModeClicked
           takeDeviceCalls := [d.selectedDevice] }
  else none

/-- Delivery of a list of events, one after the other, whatever the quit flag. -/
def replay (events : List Event) (d : SelectSupportedDevice) : SelectSupportedDevice :=
  events.foldl (fun s e => dispatch e s) d

/-- Every state a session can be in between two events: the state reached from
the constructed dialog by delivering any events, with any value of the quit
flag (no handler reads the flag, and `exec` clears it on entry). -/
def sessionState (initialSelected : UniqueUSBid) (events : List Event) (quit : Bool) :
    SelectSupportedDevice :=
  { replay events (construct initialSelected) with quitNow := quit }

/-- Events of a run of timer ticks, each given by what the backend reports. -/
def timeouts (ticks : List (Bool × List DeviceListEntry)) : List Event :=
  ticks.map (fun t => Event.timeout t.1 t.2)

/-- The OK button is enabled exactly when the current row can connect. -/
def okMatchesCurrent (d : SelectSupportedDevice) : Prop :=
  d.okEnabled = currentDataCanConnect d

instance (d : SelectSupportedDevice) : Decidable (okMatchesCurrent d) := by
  unfold okMatchesCurrent; infer_instance

/-! ## The OK button follows the current row -/

theorem currentEntry_congr {d d1 : SelectSupportedDevice} (hi : d1.currentIndex = d.currentIndex)
    (he : d1.entries = d.entries) : currentEntry d1 = currentEntry d := by
  simp [currentEntry, hi, he]

theorem currentDataCanConnect_congr {d d1 : SelectSupportedDevice}
    (hi : d1.currentIndex = d.currentIndex) (he : d1.entries = d.entries) :
    currentDataCanConnect d1 = currentDataCanConnect d := by
  simp [currentDataCanConnect, currentEntry_congr hi he]

theorem currentEntry_of_neg_one {d : SelectSupportedDevice} (h : d.currentIndex = -1) :
    currentEntry d = none := by
  simp [currentEntry, h]

theorem currentIndex_ne_of_currentEntry {d : SelectSupportedDevice} {c : DeviceListEntry}
    (h : currentEntry d = some c) : d.currentIndex ≠ -1 := by
  intro hi
  rw [currentEntry_of_neg_one hi] at h
  exact Option.noConfusion h

theorem onCurrentIndexChanged_currentIndex (i : Int) (d : SelectSupportedDevice) :
    (onCurrentIndexChanged i d).currentIndex = d.currentIndex := by
  unfold onCurrentIndexChanged
  split_ifs <;> rfl

theorem onCurrentIndexChanged_entries (i : Int) (d : SelectSupportedDevice) :
    (onCurrentIndexChanged i d).entries = d.entries := by
  unfold onCurrentIndexChanged
  split_ifs <;> rfl

theorem onCurrentIndexChanged_selectedDevice (i : Int) (d : SelectSupportedDevice) :
    (onCurrentIndexChanged i d).selectedDevice = d.selectedDevice := by
  unfold onCurrentIndexChanged
  split_ifs <;> rfl

theorem onCurrentIndexChanged_demoModeClicked (i : Int) (d : SelectSupportedDevice) :
    (onCurrentIndexChanged i d).demoModeClicked = d.demoModeClicked := by
  unfold onCurrentIndexChanged
  split_ifs <;> rfl

theorem onCurrentIndexChanged_quitNow (i : Int) (d : SelectSupportedDevice) :
    (onCurrentIndexChanged i d).quitNow = d.quitNow := by
  unfold onCurrentIndexChanged
  split_ifs <;> rfl

theorem onCurrentIndexChanged_okMatches (d : SelectSupportedDevice) :
    okMatchesCurrent (onCurrentIndexChanged d.currentIndex d) := by
  unfold okMatchesCurrent
  rw [currentDataCanConnect_congr (onCurrentIndexChanged_currentIndex _ d)
    (onCurrentIndexChanged_entries _ d)]
  unfold onCurrentIndexChanged
  split_ifs with h1 h2 h3
  · simp [currentDataCanConnect, currentEntry_of_neg_one h1]
  · simp [h2]
  · simp [h2]
  · simp [h2]

theorem setCurrentIndex_entries (i : Int) (d : SelectSupportedDevice) :
    (setCurrentIndex i d).entries = d.entries := by
  unfold setCurrentIndex
  simp only
  split_ifs <;> simp [onCurrentIndexChanged_entries]

theorem setCurrentIndex_selectedDevice (i : Int) (d : SelectSupportedDevice) :
    (setCurrentIndex i d).selectedDevice = d.selectedDevice := by
  unfold setCurrentIndex
  simp only
  split_ifs <;> simp [onCurrentIndexChanged_selectedDevice]

theorem setCurrentIndex_quitNow (i : Int) (d : SelectSupportedDevice) :
    (setCurrentIndex i d).quitNow = d.quitNow := by
  unfold setCurrentIndex
  simp only
  split_ifs <;> simp [onCurrentIndexChanged_quitNow]

theorem setCurrentIndex_currentIndex (i : Int) (d : SelectSupportedDevice) :
    (setCurrentIndex i d).currentIndex =
      if 0 ≤ i ∧ i < d.entries.length then i else -1 := by
  unfold setCurrentIndex
  simp only
  split_ifs with h1 h2 h3 <;> simp_all [onCurrentIndexChanged_currentIndex]

theorem setCurrentIndex_okMatches (i : Int) (d : SelectSupportedDevice)
    (h : okMatchesCurrent d) : okMatchesCurrent (setCurrentIndex i d) := by
  unfold setCurrentIndex
  simp only
  split_ifs with h1 h2 h3
  · exact h
  · exact onCurrentIndexChanged_okMatches { d with currentIndex := i }
  · exact h
  · exact onCurrentIndexChanged_okMatches { d with currentIndex := -1 }

theorem modelUpdateDeviceList_entries (devices : List DeviceListEntry)
    (d : SelectSupportedDevice) : (modelUpdateDeviceList devices d).entries = devices := by
  unfold modelUpdateDeviceList
  simp only
  split_ifs <;> simp [onCurrentIndexChanged_entries]

theorem modelUpdateDeviceList_currentIndex (devices : List DeviceListEntry)
    (d : SelectSupportedDevice) : (modelUpdateDeviceList devices d).currentIndex = -1 := by
  unfold modelUpdateDeviceList
  simp only
  split_ifs <;> simp [onCurrentIndexChanged_currentIndex]

theorem modelUpdateDeviceList_selectedDevice (devices : List DeviceListEntry)
    (d : SelectSupportedDevice) :
    (modelUpdateDeviceList devices d).selectedDevice = d.selectedDevice := by
  unfold modelUpdateDeviceList
  simp only
  split_ifs <;> simp [onCurrentIndexChanged_selectedDevice]

theorem modelUpdateDeviceList_demoModeClicked (devices : List DeviceListEntry)
    (d : SelectSupportedDevice) :
    (modelUpdateDeviceList devices d).demoModeClicked = d.demoModeClicked := by
  unfold modelUpdateDeviceList
  simp only
  split_ifs <;> simp [onCurrentIndexChanged_demoModeClicked]

theorem modelUpdateDeviceList_quitNow (devices : List DeviceListEntry)
    (d : SelectSupportedDevice) : (modelUpdateDeviceList devices d).quitNow = d.quitNow := by
  unfold modelUpdateDeviceList
  simp only
  split_ifs <;> simp [onCurrentIndexChanged_quitNow]

theorem modelUpdateDeviceList_okEnabled (devices : List DeviceListEntry)
    (d : SelectSupportedDevice) (h : okMatchesCurrent d) :
    (modelUpdateDeviceList devices d).okEnabled = false := by
  unfold modelUpdateDeviceList
  simp only
  split_ifs with h1
  · have := h
    unfold okMatchesCurrent at this
    simp [this, currentDataCanConnect, currentEntry_of_neg_one h1]
  · simp [onCurrentIndexChanged]

theorem modelUpdateDeviceList_okMatches (devices : List DeviceListEntry)
    (d : SelectSupportedDevice) (h : okMatchesCurrent d) :
    okMatchesCurrent (modelUpdateDeviceList devices d) := by
  unfold okMatchesCurrent
  rw [modelUpdateDeviceList_okEnabled devices d h]
  simp [currentDataCanConnect,
    currentEntry_of_neg_one (modelUpdateDeviceList_currentIndex devices d)]

theorem refreshModel_okMatches (changed : Bool) (devices : List DeviceListEntry)
    (d : SelectSupportedDevice) (h : okMatchesCurrent d) :
    okMatchesCurrent (refreshModel changed devices d) := by
  unfold refreshModel
  split_ifs
  · exact modelUpdateDeviceList_okMatches devices d h
  · exact h

theorem refreshModel_selectedDevice (changed : Bool) (devices : List DeviceListEntry)
    (d : SelectSupportedDevice) :
    (refreshModel changed devices d).selectedDevice = d.selectedDevice := by
  unfold refreshModel
  split_ifs <;> simp [modelUpdateDeviceList_selectedDevice]

theorem refreshModel_demoModeClicked (changed : Bool) (devices : List DeviceListEntry)
    (d : SelectSupportedDevice) :
    (refreshModel changed devices d).demoModeClicked = d.demoModeClicked := by
  unfold refreshModel
  split_ifs <;> simp [modelUpdateDeviceList_demoModeClicked]

theorem refreshModel_quitNow (changed : Bool) (devices : List DeviceListEntry)
    (d : SelectSupportedDevice) : (refreshModel changed devices d).quitNow = d.quitNow := by
  unfold refreshModel
  split_ifs <;> simp [modelUpdateDeviceList_quitNow]

theorem refreshModel_entries (changed : Bool) (devices : List DeviceListEntry)
    (d : SelectSupportedDevice) :
    (refreshModel changed devices d).entries = if changed then devices else d.entries := by
  unfold refreshModel
  split_ifs <;> simp [modelUpdateDeviceList_entries]

theorem onAccepted_okMatches (d : SelectSupportedDevice) (h : okMatchesCurrent d) :
    okMatchesCurrent (onAccepted d) := by
  unfold okMatchesCurrent at *
  unfold onAccepted
  simp only
  split_ifs <;> simpa [currentDataCanConnect, currentEntry] using h

theorem okClick_okMatches (d : SelectSupportedDevice) (h : okMatchesCurrent d) :
    okMatchesCurrent (okClick d) := by
  unfold okClick
  split_ifs
  · exact onAccepted_okMatches d h
  · exact h

theorem onTimeout_okMatches (changed : Bool) (devices : List DeviceListEntry)
    (d : SelectSupportedDevice) (h : okMatchesCurrent d) :
    okMatchesCurrent (onTimeout changed devices d) := by
  have h1 := refreshModel_okMatches changed devices d h
  have h2 := setCurrentIndex_okMatches 0 _ h1
  unfold onTimeout
  simp only
  split_ifs
  · exact okClick_okMatches _ h2
  · exact h2
  · simpa [okMatchesCurrent, currentDataCanConnect, currentEntry] using h1

theorem dispatch_okMatches (e : Event) (d : SelectSupportedDevice) (h : okMatchesCurrent d) :
    okMatchesCurrent (dispatch e d) := by
  cases e with
  | timeout changed devices => exact onTimeout_okMatches changed devices d h
  | activated i =>
    unfold dispatch
    simp only
    split_ifs
    · exact setCurrentIndex_okMatches _ d h
    · exact h
  | okClicked => exact okClick_okMatches d h
  | demoModeClicked =>
    simpa [dispatch, onDemoModeClicked, okMatchesCurrent, currentDataCanConnect, currentEntry]
      using h
  | applicationQuit =>
    simpa [dispatch, okMatchesCurrent, currentDataCanConnect, currentEntry] using h

theorem replay_okMatches (events : List Event) (d : SelectSupportedDevice)
    (h : okMatchesCurrent d) : okMatchesCurrent (replay events d) := by
  induction events generalizing d with
  | nil => exact h
  | cons e es ih => exact ih (dispatch e d) (dispatch_okMatches e d h)

theorem sessionState_okMatches (initialSelected : UniqueUSBid) (events : List Event)
    (quit : Bool) : okMatchesCurrent (sessionState initialSelected events quit) := by
  have h : okMatchesCurrent (replay events (construct initialSelected)) :=
    replay_okMatches events _ (by simp [okMatchesCurrent, construct, currentDataCanConnect, currentEntry])
  simpa [sessionState, okMatchesCurrent, currentDataCanConnect, currentEntry] using h

/-! ## Claims -/

/-- C2: the index-changed handler classifies the current row.  With index `-1`
it only disables OK (no selection).  With any other index and current row `c`
it shows "ready" and enables OK when `c.canConnect` (whatever `c.needFirmware`),
else shows "upload in progress" with OK disabled when `c.needFirmware`, else
shows "connection failed" followed by exactly `c.errorMessage` with OK disabled.
The four cases exclude each other and cover every input, and the OK flag and
the label written depend on nothing but the index being `-1` and the three
fields: any other dialog with the same current row gets the same. -/
theorem currentIndexChanged_classifies (index : Int) (c : DeviceListEntry)
    (d : SelectSupportedDevice) (hrow : index ≠ -1 → currentEntry d = some c) :
    (index = -1 → onCurrentIndexChanged index d = { d with okEnabled := false }) ∧
    (index ≠ -1 → c.canConnect = true →
      onCurrentIndexChanged index d =
        { d with okEnabled := true, labelReadyState := ReadyStateText.deviceReady }) ∧
    (index ≠ -1 → c.canConnect = false → c.needFirmware = true →
      onCurrentIndexChanged index d =
        { d with okEnabled := false, labelReadyState := ReadyStateText.uploadInProgress }) ∧
    (index ≠ -1 → c.canConnect = false → c.needFirmware = false →
      onCurrentIndexChanged index d =
        { d with okEnabled := false
                 labelReadyState := ReadyStateText.connectionFailed c.errorMessage }) ∧
    (∀ d1 : SelectSupportedDevice, (index ≠ -1 → currentEntry d1 = some c) →
      (onCurrentIndexChanged index d1).okEnabled = (onCurrentIndexChanged index d).okEnabled ∧
      (index ≠ -1 →
        (onCurrentIndexChanged index d1).labelReadyState =
          (onCurrentIndexChanged index d).labelReadyState)) := by
  refine ⟨?_, ?_, ?_, ?_, ?_⟩
  · intro hi
    simp [onCurrentIndexChanged, hi]
  · intro hi hc
    simp [onCurrentIndexChanged, hi, currentDataCanConnect, hrow hi, hc]
  · intro hi hc hn
    simp [onCurrentIndexChanged, hi, currentDataCanConnect, currentDataNeedFirmware, hrow hi, hc,
      hn]
  · intro hi hc hn
    simp [onCurrentIndexChanged, hi, currentDataCanConnect, currentDataNeedFirmware,
      currentDataErrorMessage, hrow hi, hc, hn]
  · intro d1 hrow1
    by_cases hi : index = -1
    · simp [onCurrentIndexChanged, hi]
    · refine ⟨?_, fun _ => ?_⟩
      · unfold onCurrentIndexChanged
        simp only [currentDataCanConnect, currentDataNeedFirmware, currentDataErrorMessage,
          hrow hi, hrow1 hi, if_neg hi]
        split_ifs <;> rfl
      · unfold onCurrentIndexChanged
        simp only [currentDataCanConnect, currentDataNeedFirmware, currentDataErrorMessage,
          hrow hi, hrow1 hi, if_neg hi]
        split_ifs <;> rfl

/-- Witness for C2: scenario C of the specification, a failed candidate with reason
"timeout" under index 0. -/
theorem currentIndexChanged_classifies_witness :
    onCurrentIndexChanged 0
        { construct 0 with currentIndex := 0, entries := [⟨33, false, false, "timeout"⟩] } =
      { construct 0 with currentIndex := 0, entries := [⟨33, false, false, "timeout"⟩]
                         okEnabled := false
                         labelReadyState := ReadyStateText.connectionFailed "timeout" } :=
  (currentIndexChanged_classifies 0 ⟨33, false, false, "timeout"⟩
    { construct 0 with currentIndex := 0, entries := [⟨33, false, false, "timeout"⟩] }
    (fun _ => by decide)).2.2.2.1 (by decide) rfl rfl

theorem currentEntry_zero {d : SelectSupportedDevice} {c : DeviceListEntry}
    {rest : List DeviceListEntry} (hi : d.currentIndex = 0) (he : d.entries = c :: rest) :
    currentEntry d = some c := by
  simp [currentEntry, hi, he]

/-- The timer handler on a non-empty registry, for any dialog whose OK button
follows the current row. -/
theorem onTimeout_nonempty (changed : Bool) (devices : List DeviceListEntry)
    (d : SelectSupportedDevice) (c : DeviceListEntry) (rest : List DeviceListEntry)
    (hinv : okMatchesCurrent d)
    (hreg : (refreshModel changed devices d).entries = c :: rest) :
    (setCurrentIndex 0 (refreshModel changed devices d)).currentIndex = 0 ∧
    currentEntry (setCurrentIndex 0 (refreshModel changed devices d)) = some c ∧
    (setCurrentIndex 0 (refreshModel changed devices d)).okEnabled = c.canConnect ∧
    onTimeout changed devices d =
      (if c.canConnect then onAccepted (setCurrentIndex 0 (refreshModel changed devices d))
       else setCurrentIndex 0 (refreshModel changed devices d)) ∧
    (onAccepted (setCurrentIndex 0 (refreshModel changed devices d))).selectedDevice = c.id := by
  have h1 := refreshModel_okMatches changed devices d hinv
  have h2 := setCurrentIndex_okMatches 0 _ h1
  have hidx : (setCurrentIndex 0 (refreshModel changed devices d)).currentIndex = 0 := by
    rw [setCurrentIndex_currentIndex, hreg]
    simp
  have hent : (setCurrentIndex 0 (refreshModel changed devices d)).entries = c :: rest := by
    rw [setCurrentIndex_entries, hreg]
  have hcur := currentEntry_zero hidx hent
  have hok : (setCurrentIndex 0 (refreshModel changed devices d)).okEnabled = c.canConnect := by
    rw [h2]
    simp [currentDataCanConnect, hcur]
  refine ⟨hidx, hcur, hok, ?_, ?_⟩
  · unfold onTimeout
    simp only [hreg, hok, okClick]
    cases hc : c.canConnect <;> simp
  · simp [onAccepted, hidx, currentDataId, hcur]

theorem onAccepted_currentIndex (d : SelectSupportedDevice) :
    (onAccepted d).currentIndex = d.currentIndex := by
  unfold onAccepted
  simp only
  split_ifs <;> rfl

theorem onAccepted_entries (d : SelectSupportedDevice) :
    (onAccepted d).entries = d.entries := by
  unfold onAccepted
  simp only
  split_ifs <;> rfl

theorem onAccepted_quitNow (d : SelectSupportedDevice) : (onAccepted d).quitNow = true := by
  unfold onAccepted
  rfl

/-- C1: a poll tick on a non-empty registry, in any state a session can be in.
After the tick index 0 is the current index and candidate 0 the current row;
the guard of the automatic click (OK enabled, line 100) is true exactly when
candidate 0 can connect; when it can, the tick is the accepted handler run on
row 0, so `selectedDevice` is the id of candidate 0 and a quit is requested;
when it cannot, the tick stops after selecting row 0: `selectedDevice` and the
quit flag are the ones from before the tick. -/
theorem timeout_nonempty_selects_first (initialSelected : UniqueUSBid) (events : List Event)
    (quit : Bool) (changed : Bool) (devices : List DeviceListEntry) (c : DeviceListEntry)
    (rest : List DeviceListEntry)
    (hreg : (refreshModel changed devices
      (sessionState initialSelected events quit)).entries = c :: rest) :
    (onTimeout changed devices (sessionState initialSelected events quit)).currentIndex = 0 ∧
    currentEntry (onTimeout changed devices (sessionState initialSelected events quit)) = some c ∧
    (setCurrentIndex 0 (refreshModel changed devices
      (sessionState initialSelected events quit))).okEnabled = c.canConnect ∧
    (c.canConnect = true →
      onTimeout changed devices (sessionState initialSelected events quit) =
        onAccepted (setCurrentIndex 0 (refreshModel changed devices
          (sessionState initialSelected events quit))) ∧
      (onTimeout changed devices (sessionState initialSelected events quit)).selectedDevice
        = c.id ∧
      (onTimeout changed devices (sessionState initialSelected events quit)).quitNow = true) ∧
    (c.canConnect = false →
      onTimeout changed devices (sessionState initialSelected events quit) =
        setCurrentIndex 0 (refreshModel changed devices
          (sessionState initialSelected events quit)) ∧
      (onTimeout changed devices (sessionState initialSelected events quit)).selectedDevice
        = (sessionState initialSelected events quit).selectedDevice ∧
      (onTimeout changed devices (sessionState initialSelected events quit)).quitNow
        = (sessionState initialSelected events quit).quitNow) := by
  obtain ⟨hidx, hcur, hok, hstep, hsel⟩ :=
    onTimeout_nonempty changed devices _ c rest
      (sessionState_okMatches initialSelected events quit) hreg
  cases hc : c.canConnect
  · simp only [hc, Bool.false_eq_true, if_false] at hstep
    refine ⟨by rw [hstep]; exact hidx, by rw [hstep]; exact hcur, by rw [hok, hc], ?_, ?_⟩
    · intro h
      exact absurd h (by simp)
    · intro _
      refine ⟨hstep, ?_, ?_⟩
      · rw [hstep, setCurrentIndex_selectedDevice, refreshModel_selectedDevice]
      · rw [hstep, setCurrentIndex_quitNow, refreshModel_quitNow]
  · simp only [hc, if_true] at hstep
    refine ⟨?_, ?_, by rw [hok, hc], ?_, ?_⟩
    · rw [hstep, onAccepted_currentIndex]
      exact hidx
    · rw [hstep, currentEntry_congr (onAccepted_currentIndex _) (onAccepted_entries _)]
      exact hcur
    · intro _
      exact ⟨hstep, by rw [hstep]; exact hsel, by rw [hstep]; exact onAccepted_quitNow _⟩
    · intro h
      exact absurd h (by simp)

/-- Witness for C1: scenario B of the specification.  A candidate that was uploading
firmware on the first tick can connect on the next one: that tick confirms it. -/
theorem timeout_nonempty_selects_first_witness :
    (onTimeout true [⟨44, true, false, ""⟩]
      (sessionState 0 [Event.timeout true [⟨44, false, true, ""⟩]] false)).selectedDevice = 44 ∧
    (onTimeout true [⟨44, true, false, ""⟩]
      (sessionState 0 [Event.timeout true [⟨44, false, true, ""⟩]] false)).quitNow = true :=
  ((timeout_nonempty_selects_first 0 [Event.timeout true [⟨44, false, true, ""⟩]] false true
    [⟨44, true, false, ""⟩] ⟨44, true, false, ""⟩ [] (by decide)).2.2.2.1 rfl).2

theorem okMatches_enabled {d : SelectSupportedDevice} (hinv : okMatchesCurrent d)
    (hok : d.okEnabled = true) : ∃ c, currentEntry d = some c ∧ c.canConnect = true := by
  unfold okMatchesCurrent at hinv
  rw [hok] at hinv
  unfold currentDataCanConnect at hinv
  cases h : currentEntry d with
  | none => simp [h] at hinv
  | some c =>
    refine ⟨c, rfl, ?_⟩
    simpa [h] using hinv.symm

/-- A click on the OK button that requests a quit records the id of the current
row, and that row can connect. -/
theorem okClick_confirms (d : SelectSupportedDevice) (hinv : okMatchesCurrent d)
    (hq : d.quitNow = false) (h : (okClick d).quitNow = true) :
    ∃ c, currentEntry (okClick d) = some c ∧ c.canConnect = true ∧
      (okClick d).selectedDevice = c.id := by
  unfold okClick at h ⊢
  by_cases hok : d.okEnabled = true
  · simp only [hok, if_true] at h ⊢
    obtain ⟨c, hc, hcan⟩ := okMatches_enabled hinv hok
    refine ⟨c, ?_, hcan, ?_⟩
    · rw [currentEntry_congr (onAccepted_currentIndex d) (onAccepted_entries d)]
      exact hc
    · simp [onAccepted, currentIndex_ne_of_currentEntry hc, currentDataId, hc]
  · simp only [hok] at h
    simp [hq] at h

theorem onTimeout_confirms (changed : Bool) (devices : List DeviceListEntry)
    (d : SelectSupportedDevice) (hinv : okMatchesCurrent d) (hq : d.quitNow = false)
    (h : (onTimeout changed devices d).quitNow = true) :
    ∃ c, currentEntry (onTimeout changed devices d) = some c ∧ c.canConnect = true ∧
      (onTimeout changed devices d).selectedDevice = c.id := by
  have h1 := refreshModel_okMatches changed devices d hinv
  have h2 := setCurrentIndex_okMatches 0 _ h1
  have hq2 : (setCurrentIndex 0 (refreshModel changed devices d)).quitNow = false := by
    rw [setCurrentIndex_quitNow, refreshModel_quitNow, hq]
  unfold onTimeout at h ⊢
  simp only at h ⊢
  split_ifs at h ⊢ with ha hb
  · exact okClick_confirms _ h2 hq2 h
  · rw [hq2] at h
    exact absurd h (by simp)
  · simp [refreshModel_quitNow, hq] at h

theorem dispatch_confirms (e : Event) (d : SelectSupportedDevice) (hinv : okMatchesCurrent d)
    (he : e ≠ Event.applicationQuit) (hq : d.quitNow = false)
    (h : (dispatch e d).quitNow = true) :
    ∃ c, currentEntry (dispatch e d) = some c ∧ c.canConnect = true ∧
      (dispatch e d).selectedDevice = c.id := by
  cases e with
  | timeout changed devices => exact onTimeout_confirms changed devices d hinv hq h
  | activated i =>
    unfold dispatch at h
    simp only at h
    split_ifs at h
    · rw [setCurrentIndex_quitNow, hq] at h
      exact absurd h (by simp)
    · rw [hq] at h
      exact absurd h (by simp)
  | okClicked => exact okClick_confirms d hinv hq h
  | demoModeClicked =>
    simp [dispatch, onDemoModeClicked, hq] at h
  | applicationQuit => exact absurd rfl he

/-- C3: in every state a session can be in, the OK button is enabled only if a
row is selected (index other than `-1`) and that row can connect.  So a press
on OK does nothing when nothing is selected and nothing when the current row
cannot connect (uploading firmware, or failed, whatever its error text); and
whenever an event other than a quit from outside ends the polling, it is a
confirmation: `selectedDevice` is then the id of the current row, and that row
can connect.  A rebuild of the registry leaves OK disabled until a row is
selected again. -/
theorem ok_enabled_only_when_ready (initialSelected : UniqueUSBid) (events : List Event)
    (quit : Bool) :
    ((sessionState initialSelected events quit).okEnabled = true →
      (sessionState initialSelected events quit).currentIndex ≠ -1 ∧
      ∃ c, currentEntry (sessionState initialSelected events quit) = some c ∧
        c.canConnect = true) ∧
    ((sessionState initialSelected events quit).currentIndex = -1 →
      okClick (sessionState initialSelected events quit) =
        sessionState initialSelected events quit) ∧
    (∀ c, currentEntry (sessionState initialSelected events quit) = some c →
      c.canConnect = false →
      okClick (sessionState initialSelected events quit) =
        sessionState initialSelected events quit) ∧
    (∀ e, e ≠ Event.applicationQuit →
      (dispatch e (sessionState initialSelected events false)).quitNow = true →
      ∃ c, currentEntry (dispatch e (sessionState initialSelected events false)) = some c ∧
        c.canConnect = true ∧
        (dispatch e (sessionState initialSelected events false)).selectedDevice = c.id) ∧
    (∀ devices,
      (modelUpdateDeviceList devices (sessionState initialSelected events quit)).okEnabled
        = false) := by
  have hinv := sessionState_okMatches initialSelected events quit
  have hoff : ∀ c0, currentEntry (sessionState initialSelected events quit) = c0 →
      (∀ c, c0 = some c → c.canConnect = false) →
      okClick (sessionState initialSelected events quit) =
        sessionState initialSelected events quit := by
    intro c0 hc0 hall
    unfold okClick
    by_cases hok : (sessionState initialSelected events quit).okEnabled = true
    · obtain ⟨c, hc, hcan⟩ := okMatches_enabled hinv hok
      have := hall c (by rw [← hc0, hc])
      rw [hcan] at this
      exact absurd this (by simp)
    · simp [hok]
  refine ⟨?_, ?_, ?_, ?_, fun devices => modelUpdateDeviceList_okEnabled devices _ hinv⟩
  · intro hok
    obtain ⟨c, hc, hcan⟩ := okMatches_enabled hinv hok
    exact ⟨currentIndex_ne_of_currentEntry hc, c, hc, hcan⟩
  · intro hi
    exact hoff none (currentEntry_of_neg_one hi) (by intro c hc; exact Option.noConfusion hc)
  · intro c hc hcan
    refine hoff (some c) hc ?_
    intro c1 hc1
    cases hc1
    exact hcan
  · intro e he h
    exact dispatch_confirms e _ (sessionState_okMatches initialSelected events false) he rfl h

/-- The timer handler when the registry is empty after the refresh: only the
label is written. -/
theorem onTimeout_empty (changed : Bool) (devices : List DeviceListEntry)
    (d : SelectSupportedDevice) (hreg : (refreshModel changed devices d).entries = []) :
    onTimeout changed devices d =
      { refreshModel changed devices d with labelReadyState := ReadyStateText.noDevices } := by
  unfold onTimeout
  simp [hreg]

theorem eventLoop_empty_ticks (ticks : List (Bool × List DeviceListEntry))
    (d : SelectSupportedDevice) (hent : d.entries = []) (hq : d.quitNow = false)
    (hticks : ∀ t ∈ ticks, t.1 = true → t.2 = []) :
    (eventLoop (timeouts ticks) d).selectedDevice = d.selectedDevice ∧
    (eventLoop (timeouts ticks) d).demoModeClicked = d.demoModeClicked ∧
    (eventLoop (timeouts ticks) d).quitNow = false ∧
    (eventLoop (timeouts ticks) d).entries = [] := by
  induction ticks generalizing d with
  | nil => exact ⟨rfl, rfl, hq, hent⟩
  | cons t ts ih =>
    have hreg : (refreshModel t.1 t.2 d).entries = [] := by
      rw [refreshModel_entries]
      split_ifs with hc
      · exact hticks t (List.mem_cons_self t ts) hc
      · exact hent
    have hstep := onTimeout_empty t.1 t.2 d hreg
    have hsel : (onTimeout t.1 t.2 d).selectedDevice = d.selectedDevice := by
      rw [hstep]
      exact refreshModel_selectedDevice _ _ d
    have hdemo : (onTimeout t.1 t.2 d).demoModeClicked = d.demoModeClicked := by
      rw [hstep]
      exact refreshModel_demoModeClicked _ _ d
    have hquit : (onTimeout t.1 t.2 d).quitNow = false := by
      rw [hstep]
      exact (refreshModel_quitNow _ _ d).trans hq
    have hent1 : (onTimeout t.1 t.2 d).entries = [] := by
      rw [hstep]
      exact hreg
    obtain ⟨i1, i2, i3, i4⟩ :=
      ih (onTimeout t.1 t.2 d) hent1 hquit
        (fun t1 ht1 => hticks t1 (List.mem_cons_of_mem t ht1))
    simp only [timeouts, List.map_cons, eventLoop, hq, Bool.false_eq_true, if_false, dispatch]
    simp only [timeouts] at i1 i2 i3 i4
    exact ⟨i1.trans hsel, i2.trans hdemo, i3, i4⟩

/-- C8: a poll tick that finds the registry empty after the refresh writes the
no-devices guidance to the label and nothing else to the refreshed dialog: no
click on OK is made, and `selectedDevice`, `demoModeClicked` and the quit flag
keep their values.  Hence a run of any number of ticks that all find the
registry empty, delivered by the running event loop from a dialog with an
empty registry, leaves these values as they were and the loop still running. -/
theorem timeout_empty_keeps_selection (changed : Bool) (devices : List DeviceListEntry)
    (d : SelectSupportedDevice) (hreg : (refreshModel changed devices d).entries = []) :
    onTimeout changed devices d =
      { refreshModel changed devices d with labelReadyState := ReadyStateText.noDevices } ∧
    (onTimeout changed devices d).labelReadyState = ReadyStateText.noDevices ∧
    (onTimeout changed devices d).selectedDevice = d.selectedDevice ∧
    (onTimeout changed devices d).demoModeClicked = d.demoModeClicked ∧
    (onTimeout changed devices d).quitNow = d.quitNow ∧
    (∀ ticks : List (Bool × List DeviceListEntry), (∀ t ∈ ticks, t.1 = true → t.2 = []) →
      (onTimeout changed devices d).quitNow = false →
      (eventLoop (timeouts ticks) (onTimeout changed devices d)).selectedDevice
        = d.selectedDevice ∧
      (eventLoop (timeouts ticks) (onTimeout changed devices d)).demoModeClicked
        = d.demoModeClicked ∧
      (eventLoop (timeouts ticks) (onTimeout changed devices d)).quitNow = false) := by
  have hstep := onTimeout_empty changed devices d hreg
  have hsel : (onTimeout changed devices d).selectedDevice = d.selectedDevice := by
    rw [hstep]
    exact refreshModel_selectedDevice _ _ d
  have hdemo : (onTimeout changed devices d).demoModeClicked = d.demoModeClicked := by
    rw [hstep]
    exact refreshModel_demoModeClicked _ _ d
  have hent1 : (onTimeout changed devices d).entries = [] := by
    rw [hstep]
    exact hreg
  refine ⟨hstep, by rw [hstep], hsel, hdemo, ?_, ?_⟩
  · rw [hstep]
    exact refreshModel_quitNow _ _ d
  · intro ticks hticks hq
    obtain ⟨i1, i2, i3, _⟩ := eventLoop_empty_ticks ticks _ hent1 hq hticks
    exact ⟨i1.trans hsel, i2.trans hdemo, i3⟩

/-- Witness for C8: scenario A of the specification.  The registry is empty on the
immediate tick and on three ticks of the event loop: the session is still
polling and nothing is selected. -/
theorem timeout_empty_keeps_selection_witness :
    (eventLoop (timeouts [(true, []), (false, []), (true, [])])
      (onTimeout true [] (construct 0))).selectedDevice = 0 ∧
    (eventLoop (timeouts [(true, []), (false, []), (true, [])])
      (onTimeout true [] (construct 0))).quitNow = false :=
  have h := (timeout_empty_keeps_selection true [] (construct 0) (by decide)).2.2.2.2.2
    [(true, []), (false, []), (true, [])] (by decide) (by decide)
  ⟨h.1, h.2.2⟩

/-! ## The event loop -/

theorem okClick_entries (d : SelectSupportedDevice) : (okClick d).entries = d.entries := by
  unfold okClick
  split_ifs
  · exact onAccepted_entries d
  · rfl

theorem okClick_currentIndex (d : SelectSupportedDevice) :
    (okClick d).currentIndex = d.currentIndex := by
  unfold okClick
  split_ifs
  · exact onAccepted_currentIndex d
  · rfl

theorem onTimeout_entries (changed : Bool) (devices : List DeviceListEntry)
    (d : SelectSupportedDevice) :
    (onTimeout changed devices d).entries = (refreshModel changed devices d).entries := by
  unfold onTimeout
  simp only
  split_ifs
  · rw [okClick_entries, setCurrentIndex_entries]
  · rw [setCurrentIndex_entries]
  · rfl

/-- C9, counterexample: two candidates, the first failed, the second able to
connect.  The user picks the second row, which enables OK.  The next tick, on
which the backend reports no change, leaves the registry alone but makes row 0
current again and disables OK. -/
theorem unchanged_tick_resets_index :
    (afterExec true [⟨33, false, false, "timeout"⟩, ⟨22, true, false, ""⟩]
      [Event.activated 1] (construct 0)).currentIndex = 1 ∧
    (afterExec true [⟨33, false, false, "timeout"⟩, ⟨22, true, false, ""⟩]
      [Event.activated 1] (construct 0)).okEnabled = true ∧
    (afterExec true [⟨33, false, false, "timeout"⟩, ⟨22, true, false, ""⟩]
      [Event.activated 1, Event.timeout false []] (construct 0)).currentIndex = 0 ∧
    (afterExec true [⟨33, false, false, "timeout"⟩, ⟨22, true, false, ""⟩]
      [Event.activated 1, Event.timeout false []] (construct 0)).okEnabled = false := by
  decide

/-- C9, amended: on a tick on which the backend reports no change the registry
is not rebuilt, but the selection step runs all the same: with a non-empty
registry the tick is `setCurrentIndex( 0 )` followed by the automatic click on
OK if it is enabled, and row 0 is current afterwards; with an empty registry
only the label is written.  The index, the OK flag, the recorded selection and
the quit flag are all unchanged when the registry is empty, and the whole
dialog is unchanged when row 0 is already current and OK is disabled. -/
theorem unchanged_tick_reruns_selection (devices : List DeviceListEntry)
    (d : SelectSupportedDevice) :
    (onTimeout false devices d).entries = d.entries ∧
    (d.entries = [] →
      onTimeout false devices d = { d with labelReadyState := ReadyStateText.noDevices }) ∧
    (d.entries ≠ [] →
      onTimeout false devices d =
        (if (setCurrentIndex 0 d).okEnabled then okClick (setCurrentIndex 0 d)
         else setCurrentIndex 0 d) ∧
      (onTimeout false devices d).currentIndex = 0) ∧
    (d.entries ≠ [] → d.currentIndex = 0 → d.okEnabled = false →
      onTimeout false devices d = d) := by
  have hne : ∀ {l : List DeviceListEntry}, l ≠ [] → ((0 : Int) < l.length) := by
    intro l hl
    cases l with
    | nil => exact absurd rfl hl
    | cons a t => simp
  have hstep : d.entries ≠ [] → onTimeout false devices d =
      (if (setCurrentIndex 0 d).okEnabled then okClick (setCurrentIndex 0 d)
       else setCurrentIndex 0 d) := by
    intro h
    simp [onTimeout, refreshModel, h]
  refine ⟨?_, ?_, ?_, ?_⟩
  · rw [onTimeout_entries]
    rfl
  · intro h
    simp [onTimeout, refreshModel, h]
  · intro h
    refine ⟨hstep h, ?_⟩
    have hidx : (setCurrentIndex 0 d).currentIndex = 0 := by
      rw [setCurrentIndex_currentIndex]
      simp [hne h]
    rw [hstep h]
    split_ifs
    · rw [okClick_currentIndex, hidx]
    · exact hidx
  · intro h hi hok
    have hsame : setCurrentIndex 0 d = d := by
      simp [setCurrentIndex, hne h, hi]
    rw [hstep h, hsame]
    simp [hok]

/-- C10, failing input: candidate 22 can connect when the session starts.  The
immediate tick, delivered before `exec`, confirms it: `selectedDevice` is 22 and
a quit is requested.  The event loop runs all the same and waits for events.
Its first tick is processed and confirms again, also when the backend reports
no change; when candidate 11 has taken the first place by then, the tick
overwrites `selectedDevice` with 11. -/
theorem confirmation_before_exec_repeats :
    (beforeExec true [⟨22, true, false, ""⟩] (construct 0)).selectedDevice = 22 ∧
    (beforeExec true [⟨22, true, false, ""⟩] (construct 0)).quitNow = true ∧
    showSelectDeviceModal (fun i => some ⟨i⟩) true [⟨22, true, false, ""⟩] [] (construct 0)
      = none ∧
    showSelectDeviceModal (fun i => some ⟨i⟩) true [⟨22, true, false, ""⟩]
        [Event.timeout false []] (construct 0) =
      some { device := some ⟨22⟩, demoMode := false, takeDeviceCalls := [22] } ∧
    showSelectDeviceModal (fun i => some ⟨i⟩) true [⟨22, true, false, ""⟩]
        [Event.timeout true [⟨11, true, false, ""⟩, ⟨22, true, false, ""⟩]] (construct 0) =
      some { device := some ⟨11⟩, demoMode := false, takeDeviceCalls := [11] } := by
  decide

/-! ## Sessions in which no candidate can connect -/

end OpenHantek
